import Mathlib

/-!
Verification development for the smart-scraping / parallel-company-research
pipeline (`scripts/smart_scraping_workflow.py`, `scripts/parallel_company_research.py`).

The Python code is shallowly embedded: every external effect (the Crawl4AI
browser render, the optional LLM extraction call, the Firecrawl service call,
the randomly selected proxy) is an oracle supplied as input, Python `float`
arithmetic is modelled over `ℚ`, a Python exception is `Except.error`, and a
Python function that can return a dict or fall through to `None` returns an
explicit three-way outcome type.  JSON documents delivered by the external
services are modelled by a tag recording whether `json.loads` would succeed on
them, together with the parsed value (the structure of the parsed value only
matters through Python truthiness, which is modelled faithfully).
-/

/-- A parsed JSON value, as produced by `json.loads`.  The embedded code
observes a parsed value only through Python truthiness, so arrays and objects
are abstracted to their size / key list (what truthiness depends on). -/
inductive JsonVal where
  | null
  | bool (b : Bool)
  | num (q : ℚ)
  | str (s : String)
  | arr (size : ℕ)
  | obj (keys : List String)
deriving DecidableEq, Repr

/-- Python truthiness of a parsed JSON value (`None`, `False`, `0`, `""`,
`[]`, and the empty object are falsy). -/
def JsonVal.isTruthy : JsonVal → Bool
  | .null => false
  | .bool b => b
  | .num q => q != 0
  | .str s => s != ""
  | .arr n => n != 0
  | .obj ks => !ks.isEmpty

/-- A textual document delivered by an external service, tagged by whether it
is valid JSON: `valid v` is a text on which `json.loads` returns `v`,
`invalid s` is a text on which `json.loads` raises. -/
inductive Doc where
  | valid (v : JsonVal)
  | invalid (s : String)
deriving DecidableEq, Repr

/-- Python truthiness of the document text (a valid JSON text is nonempty). -/
def Doc.truthy : Doc → Bool
  | .valid _ => true
  | .invalid s => s != ""

/-- `json.loads` on a document: returns the parsed value or raises. -/
def jsonLoads : Doc → Except String JsonVal
  | .valid v => .ok v
  | .invalid _ => .error "json.loads: invalid JSON"

/-- Python truthiness of an optional string (`None` and `""` are falsy). -/
def optStrTruthy : Option String → Bool
  | none => false
  | some s => s != ""

/-- Python truthiness of an optional document. -/
def optDocTruthy : Option Doc → Bool
  | none => false
  | some d => d.truthy

/-- Python truthiness of an optional parsed JSON value. -/
def jsonOptTruthy : Option JsonVal → Bool
  | none => false
  | some v => v.isTruthy

/-- The scraping backends named in the `self.costs` dict. -/
inductive Backend where
  | crawl4ai
  | firecrawl
deriving DecidableEq, Repr

/-- The `self.costs` dict of `SmartScrapingWorkflow`: per-backend running
totals plus the page counter (`__init__`, lines 46-50). -/
structure Costs where
  crawl4ai : ℚ
  firecrawl : ℚ
  total_pages : ℕ
deriving DecidableEq, Repr

/-- The initial ledger `\x7b'crawl4ai': 0.0, 'firecrawl': 0.0, 'total_pages': 0\x7d`. -/
def costs0 : Costs := { crawl4ai := 0, firecrawl := 0, total_pages := 0 }

/-- One ledger update as performed by the adapters on success:
`self.costs[backend] += cost; self.costs['total_pages'] += 1`
(lines 211-212 and 253-254). -/
def recordCost (b : Backend) (c : ℚ) (st : Costs) : Costs :=
  match b with
  | .crawl4ai => { st with crawl4ai := st.crawl4ai + c, total_pages := st.total_pages + 1 }
  | .firecrawl => { st with firecrawl := st.firecrawl + c, total_pages := st.total_pages + 1 }

/-- Total cost as reported by `_print_cost_summary` / `_generate_recommendations`:
`self.costs['crawl4ai'] + self.costs['firecrawl']`. -/
def totalCost (st : Costs) : ℚ := st.crawl4ai + st.firecrawl

/-- The environment-variable configuration read by `SmartScrapingWorkflow`
(`os.getenv` values; `none` means the variable is unset).  The
`OPENAI_NANO_COST_PER_M` value is modelled already parsed as a rational. -/
structure EnvConfig where
  crawl4ai_llm_provider : Option String
  deepseek_api_key : Option String
  deepseek_model : Option String
  grok_api_key : Option String
  grok_model : Option String
  openai_api_key : Option String
  openai_model : Option String
  openai_nano_cost_per_m : Option ℚ
deriving Repr

/-- `_get_llm_config` (lines 89-108): branch on
`self.llm_provider = os.getenv('CRAWL4AI_LLM_PROVIDER', 'deepseek')` and return
`(provider, api_key, model)`. -/
def get_llm_config (cfg : EnvConfig) : String × Option String × String :=
  let p := cfg.crawl4ai_llm_provider.getD "deepseek"
  if p = "deepseek" then
    ("deepseek", cfg.deepseek_api_key, cfg.deepseek_model.getD "deepseek-chat")
  else if p = "grok" then
    ("grok", cfg.grok_api_key, cfg.grok_model.getD "grok-3-mini")
  else
    ("openai", cfg.openai_api_key, cfg.openai_model.getD "gpt-5-nano")

/-- The object returned by `crawler.arun(url=url)` (the basic crawl). -/
structure CrawlResult where
  success : Bool
  markdown : Option String
  extracted_content : Option Doc
  links : List String
  /-- `none` models an object without an `images` attribute
  (`result.images if hasattr(result, 'images') else []`). -/
  images : Option (List String)
deriving Repr

/-- The object returned by the LLM-extraction crawl
(`crawler.arun(url=url, extraction_strategy=llm_strategy)`). -/
structure LLMResult where
  success : Bool
  extracted_content : Option Doc
deriving Repr

/-- The oracle for one `_try_crawl4ai` call: the outcome of the basic render,
the outcome of the optional LLM-extraction render (consulted only when the
provider is `openai` with a truthy key), and the proxy the call would use
(`self._get_proxy() if self.use_proxy else None`, a random choice modelled as
an input; only its `url` field is observable through `proxy_used`). -/
structure C4Env where
  proxy : Option String
  arun : Except String CrawlResult
  llm_arun : Except String LLMResult
deriving Repr

/-- The oracle for one `_try_firecrawl` call:
`self.firecrawl.scrape_url(url, **params)` either raises (`error`), returns a
falsy value (`ok none`), or returns a truthy result document (`ok (some d)`). -/
structure FCEnv where
  scrape : Except String (Option String)
deriving Repr

/-- `estimated_tokens = len(result.markdown) / 4 if result.markdown else 0`
(line 201), over exact rationals. -/
def estimatedTokens : Option String → ℚ
  | none => 0
  | some s => if s = "" then 0 else (s.length : ℚ) / 4

/-- The cost computation of `_try_crawl4ai` (lines 200-209): per-provider
price per million tokens, with the `OPENAI_NANO_COST_PER_M` override
(default `0.5`) for the `openai` branch. -/
def crawl4aiCost (provider : String) (cfg : EnvConfig) (markdown : Option String) : ℚ :=
  let estimated_tokens := estimatedTokens markdown
  if provider = "deepseek" then (estimated_tokens / 1000000) * 0.14
  else if provider = "grok" then (estimated_tokens / 1000000) * 0.10
  else (estimated_tokens / 1000000) * (cfg.openai_nano_cost_per_m.getD 0.5)

/-- The optional LLM-extraction stage of `_try_crawl4ai` (lines 173-198):
runs only when `provider == 'openai' and api_key`; any exception of the inner
`try` (including a `json.loads` parse failure on `llm_result.extracted_content`)
leaves `extracted_json = None`. -/
def llmExtractedJson (provider : String) (api_key : Option String) (e : C4Env) :
    Option JsonVal :=
  if provider = "openai" ∧ optStrTruthy api_key then
    match e.llm_arun with
    | .error _ => none
    | .ok llm =>
      if llm.success ∧ optDocTruthy llm.extracted_content then
        match llm.extracted_content with
        | some d =>
          match jsonLoads d with
          | .ok v => some v
          | .error _ => none
        | none => none
      else none
  else none

/-- The `'extracted'` entry of the returned `data` dict (line 222):
`extracted_json or (json.loads(result.extracted_content) if
result.extracted_content else None)`.  This expression is evaluated inside the
outer `try`, so a parse failure here raises (`error`) out of the dict
construction. -/
def c4Extracted (extracted_json : Option JsonVal) (ec : Option Doc) :
    Except String (Option JsonVal) :=
  if jsonOptTruthy extracted_json then .ok extracted_json
  else
    match ec with
    | some d => if d.truthy then (jsonLoads d).map some else .ok none
    | none => .ok none

/-- The success dict returned by `_try_crawl4ai` (lines 214-227). -/
structure C4Info where
  provider : String
  model : String
  cost : ℚ
  markdown : Option String
  extracted : Option JsonVal
  links : List String
  images : List String
  proxy_used : Option String
deriving DecidableEq, Repr

/-- What `_try_crawl4ai` evaluates to: Python `None` (falling off the end),
a `\x7b'success': False, 'error': ...\x7d` dict, or the success dict. -/
inductive C4Outcome where
  | noneR
  | fail (error : String)
  | ok (info : C4Info)
deriving Repr

/-- `true` exactly on the success dict. -/
def C4Outcome.isOk : C4Outcome → Bool
  | .ok _ => true
  | _ => false

/-- `true` exactly on the `success=False` dict. -/
def C4Outcome.isFail : C4Outcome → Bool
  | .fail _ => true
  | _ => false

/-- `_try_crawl4ai` (lines 146-231).  The whole body is one `try`: an
exception from the basic render yields the failure dict; an unsuccessful
render falls off the function (Python `None`); a successful render runs the
optional LLM stage, records cost in the ledger (lines 211-212) and then builds
the return dict — whose `'extracted'` entry can itself raise `json.loads`,
landing in the outer `except` with the cost already recorded.
The `url` and `extraction_instructions` arguments only feed the external
calls, whose outcomes are the oracle `e`. -/
def tryCrawl4ai (cfg : EnvConfig) (url : String) (extraction_instructions : Option String)
    (e : C4Env) (st : Costs) : C4Outcome × Costs :=
  let provider := (get_llm_config cfg).1
  let api_key := (get_llm_config cfg).2.1
  let model := (get_llm_config cfg).2.2
  match e.arun with
  | .error err => (.fail err, st)
  | .ok result =>
    if result.success then
      let extracted_json := llmExtractedJson provider api_key e
      let cost := crawl4aiCost provider cfg result.markdown
      let st' := recordCost .crawl4ai cost st
      match c4Extracted extracted_json result.extracted_content with
      | .error err => (.fail err, st')
      | .ok ext =>
        (.ok { provider := provider, model := model, cost := cost,
               markdown := result.markdown, extracted := ext,
               links := result.links, images := result.images.getD [],
               proxy_used := e.proxy }, st')
    else
      (.noneR, st)

/-- What `_try_firecrawl` evaluates to. -/
inductive FCOutcome where
  | noneR
  | fail (error : String)
  | ok (cost : ℚ) (data : String)
deriving Repr

/-- `true` exactly on the success dict. -/
def FCOutcome.isOk : FCOutcome → Bool
  | .ok _ _ => true
  | _ => false

/-- `_try_firecrawl` (lines 233-265): a service exception yields the failure
dict; a falsy service result falls off the function (Python `None`); a truthy
result records the fixed `cost = 0.01` and returns the success dict.  The
`url` and `extraction_instructions` arguments only shape the service request,
whose outcome is the oracle `e`. -/
def tryFirecrawl (url : String) (extraction_instructions : Option String)
    (e : FCEnv) (st : Costs) : FCOutcome × Costs :=
  match e.scrape with
  | .error err => (.fail err, st)
  | .ok none => (.noneR, st)
  | .ok (some data) => (.ok 0.01 data, recordCost .firecrawl 0.01 st)

/-- The oracles for one `scrape_url` call. -/
structure ScrapeEnv where
  c4 : C4Env
  fc : FCEnv
deriving Repr

/-- The dict returned by `scrape_url`: the Crawl4AI success dict, the
Firecrawl success dict, or the aggregate-failure dict
`\x7b'success': False, 'error': ..., 'url': ...\x7d` (lines 140-144). -/
inductive ScrapeResult where
  | c4ok (info : C4Info)
  | fcok (cost : ℚ) (data : String)
  | bothFailed (error : String) (url : String)
deriving DecidableEq, Repr

/-- `result['success']`. -/
def ScrapeResult.success : ScrapeResult → Bool
  | .bothFailed _ _ => false
  | _ => true

/-- `result.get('source')`. -/
def ScrapeResult.source : ScrapeResult → Option String
  | .c4ok _ => some "crawl4ai"
  | .fcok _ _ => some "firecrawl"
  | .bothFailed _ _ => none

/-- `result.get('cost', 0)`. -/
def ScrapeResult.getCost : ScrapeResult → ℚ
  | .c4ok info => info.cost
  | .fcok c _ => c
  | .bothFailed _ _ => 0

/-- `result.get('error')`. -/
def ScrapeResult.errorMsg : ScrapeResult → Option String
  | .bothFailed e _ => some e
  | _ => none

/-- `result.get('data', \x7b\x7d).get('extracted')`: present only on a
Crawl4AI success dict; the Firecrawl `data` payload carries no `'extracted'`
entry. -/
def ScrapeResult.extractedData : ScrapeResult → Option JsonVal
  | .c4ok info => info.extracted
  | _ => none

/-- `scrape_url` (lines 110-144): try Crawl4AI; if the outcome is falsy or
has a falsy `'success'`, try Firecrawl; if that is also falsy or failed,
return the aggregate failure dict. -/
def scrape_url (cfg : EnvConfig) (url : String) (extraction_instructions : Option String)
    (env : ScrapeEnv) (st : Costs) : ScrapeResult × Costs :=
  let r1 := tryCrawl4ai cfg url extraction_instructions env.c4 st
  match r1 with
  | (.ok info, st1) => (.c4ok info, st1)
  | (_, st1) =>
    let r2 := tryFirecrawl url extraction_instructions env.fc st1
    match r2 with
    | (.ok c d, st2) => (.fcok c d, st2)
    | (_, st2) => (.bothFailed "Both Crawl4AI and Firecrawl failed" url, st2)

/-! ## Parallel company research (`scripts/parallel_company_research.py`) -/

/-- The fields of a loaded company row that the pipeline's routing actually
consumes (`load_companies`): the identifier, the primary website URL and the
LinkedIn URL.  All the other CSV columns only pass through to output
rendering. -/
structure Company where
  company_name : String
  website : String
  linkedin_url : String
deriving DecidableEq, Repr

/-- Python `str.strip()`: drop leading and trailing whitespace, modelled over
the character list. -/
def pyStrip (s : String) : String :=
  String.mk (((s.toList.dropWhile Char.isWhitespace).reverse.dropWhile Char.isWhitespace).reverse)

/-- Python `str.startswith(p)`, modelled over the character list. -/
def pyStartsWith (s p : String) : Bool :=
  p.toList.isPrefixOf s.toList

/-- `url.rstrip('/')`. -/
def rstripSlash (s : String) : String :=
  String.mk ((s.toList.reverse.dropWhile (fun c => c = '/')).reverse)

/-- `clean_url` (lines 84-93): empty stays empty; otherwise strip whitespace,
prefix `https://` when no scheme is present, and drop trailing slashes. -/
def clean_url (url : String) : String :=
  if url = "" then ""
  else
    let url := pyStrip url
    let url := if pyStartsWith url "http://" ∨ pyStartsWith url "https://" then url
               else "https://" ++ url
    rstripSlash url

/-- The extraction prompt built for the main site (lines 106-117); its text is
only passed through to the external services, so the model keeps the leading
words. -/
def extractionPrompt (c : Company) : String :=
  "Extract comprehensive information about " ++ c.company_name

/-- One value of the `scraping_results` dict, which holds both scrape result
dicts (under `'main_site'` / `'linkedin'`) and the bare extracted payload
(under `'extracted_data'`). -/
inductive SREntry where
  | result (r : ScrapeResult)
  | extracted (v : JsonVal)
deriving DecidableEq, Repr

/-- The per-company result dict built by `scrape_company_data`:
`\x7b'company': ..., 'scraping_results': \x7b...\x7d, 'scraping_cost': ...\x7d`,
with the dict kept as an insertion-ordered association list. -/
structure CompanyResultM where
  company : Company
  scraping_results : List (String × SREntry)
  scraping_cost : ℚ
deriving Repr

/-- The oracles for one `scrape_company_data` call: one `scrape_url`
environment for the main site and one for the LinkedIn URL. -/
structure CompanyEnv where
  mainEnv : ScrapeEnv
  liEnv : ScrapeEnv
deriving Repr

/-- `scrape_company_data` (lines 95-150).  The main site is scraped when the
cleaned website is truthy; only a successful result is stored (under
`'main_site'`) and only its cost is added; a truthy `data['extracted']`
additionally stores `'extracted_data'`.  The LinkedIn URL is scraped when it
is truthy and starts with `http`; again only success is stored.  `scrape_url`
never raises in the model (every modelled exception is handled inside the
adapters), so the surrounding `try/except` blocks contribute no behaviour. -/
def scrape_company_data (cfg : EnvConfig) (company : Company) (env : CompanyEnv)
    (st : Costs) : CompanyResultM × Costs :=
  let website := clean_url company.website
  let mainStep :=
    if website ≠ "" then
      let r := scrape_url cfg website (some (extractionPrompt company)) env.mainEnv st
      if r.1.success then
        let base := [("main_site", SREntry.result r.1)]
        let entries :=
          match r.1.extractedData with
          | some v => if v.isTruthy then base ++ [("extracted_data", SREntry.extracted v)]
                      else base
          | none => base
        (entries, r.1.getCost, r.2)
      else ([], 0, r.2)
    else ([], (0 : ℚ), st)
  match mainStep with
  | (mainEntries, mainCost, st1) =>
    let liStep :=
      if company.linkedin_url ≠ "" ∧ pyStartsWith company.linkedin_url "http" then
        let r := scrape_url cfg company.linkedin_url
                   (some "Extract company size, recent posts, and employee count")
                   env.liEnv st1
        if r.1.success then ([("linkedin", SREntry.result r.1)], r.1.getCost, r.2)
        else ([], 0, r.2)
      else ([], (0 : ℚ), st1)
    match liStep with
    | (liEntries, liCost, st2) =>
      ({ company := company, scraping_results := mainEntries ++ liEntries,
         scraping_cost := mainCost + liCost }, st2)

/-- One orchestration task: the company row together with the oracles its
scrapes will consume. -/
def CompanyTaskE := Company × CompanyEnv

/-- `process_company_batch` (lines 241-256): run `scrape_company_data` for
every company of the batch (`asyncio.gather` keeps the result order; the
shared ledger is threaded through the completed updates). -/
def process_company_batch (cfg : EnvConfig) :
    List CompanyTaskE → Costs → List CompanyResultM × Costs
  | [], st => ([], st)
  | t :: rest, st =>
    let r := scrape_company_data cfg t.1 t.2 st
    let rs := process_company_batch cfg rest r.2
    (r.1 :: rs.1, rs.2)

/-- `generate_master_csv` (lines 261-313) builds exactly one CSV row per
result and writes the file only when `rows` is nonempty (`if rows:`); row
rendering is plain string formatting, so the write is modelled by the result
list it serialises (`none` = no write). -/
def generate_master_csv (all_results : List CompanyResultM) :
    Option (List CompanyResultM) :=
  if all_results.isEmpty then none else some all_results

/-- The slices taken by `for i in range(0, len(companies), batch_size):
batch = companies[i:i + batch_size]`, with fuel bounding the recursion (the
fuel is instantiated with the list length, which suffices for every
`bs ≥ 1`; Python raises `ValueError` on step `0`, which the model never
uses). -/
def chunkGo (bs : ℕ) : ℕ → List α → List (List α)
  | 0, _ => []
  | _, [] => []
  | fuel + 1, x :: xs => (x :: xs).take bs :: chunkGo bs fuel (xs.drop (bs - 1))

/-- The batch partition of the task list. -/
def chunkList (bs : ℕ) (l : List α) : List (List α) := chunkGo bs l.length l

/-- The body of the batch loop of `run_research_pipeline` (lines 327-353):
process the batch, extend the cumulative results
(`wait_for_deep_research` is the identity), and checkpoint the cumulative
master CSV.  Returns the final cumulative results, the checkpoint written
after each batch, and the final ledger. -/
def pipelineBatches (cfg : EnvConfig) :
    List (List CompanyTaskE) → List CompanyResultM → Costs →
      List CompanyResultM × List (Option (List CompanyResultM)) × Costs
  | [], acc, st => (acc, [], st)
  | batch :: rest, acc, st =>
    let br := process_company_batch cfg batch st
    let acc' := acc ++ br.1
    let cp := generate_master_csv acc'
    let r := pipelineBatches cfg rest acc' br.2
    (r.1, cp :: r.2.1, r.2.2)

/-- The truncation `if limit: companies = companies[:limit]` (lines 320-322):
Python truthiness makes `limit = 0` (and `None`) skip the truncation. -/
def truncate_limit (limit : Option ℕ) (tasks : List α) : List α :=
  match limit with
  | none => tasks
  | some l => if l = 0 then tasks else tasks.take l

/-- `run_research_pipeline` (lines 315-356): truncate, partition into batches
of `batch_size`, and drive the batch loop starting from empty cumulative
results. -/
def run_research_pipeline (cfg : EnvConfig) (tasks : List CompanyTaskE)
    (limit : Option ℕ) (batch_size : ℕ) (st : Costs) :
    List CompanyResultM × List (Option (List CompanyResultM)) × Costs :=
  pipelineBatches cfg (chunkList batch_size (truncate_limit limit tasks)) [] st

/-! ## Run-level views used by the ledger invariants -/

/-- One routed fetch of a run: the URL, the instructions and the oracles it
consumes. -/
structure ScrapeJob where
  url : String
  instr : Option String
  env : ScrapeEnv
deriving Repr

/-- A sequence of `scrape_url` calls against the shared ledger, collecting
the returned dicts: the observation points of a run are exactly the states
after each prefix of such a sequence. -/
def runScrapes (cfg : EnvConfig) : List ScrapeJob → Costs → List ScrapeResult × Costs
  | [], st => ([], st)
  | j :: rest, st =>
    let r := scrape_url cfg j.url j.instr j.env st
    let rs := runScrapes cfg rest r.2
    (r.1 :: rs.1, rs.2)

/-- A Crawl4AI oracle is construction-safe when a successful render never
aborts inside the return-dict construction, i.e. the `'extracted'` entry
(line 222) evaluates without raising.  This is in particular the case
whenever the basic crawl (which runs without an extraction strategy) carries
no `extracted_content`. -/
def SafeC4 (cfg : EnvConfig) (e : C4Env) : Prop :=
  ∀ r, e.arun = .ok r → r.success = true →
    (c4Extracted
      (llmExtractedJson (get_llm_config cfg).1 (get_llm_config cfg).2.1 e)
      r.extracted_content).isOk = true

instance (cfg : EnvConfig) (e : C4Env) : Decidable (SafeC4 cfg e) := by
  unfold SafeC4
  cases e.arun with
  | error err =>
    exact .isTrue (by intro r hr; cases hr)
  | ok res =>
    by_cases hs : res.success = true
    · by_cases hx : (c4Extracted
        (llmExtractedJson (get_llm_config cfg).1 (get_llm_config cfg).2.1 e)
        res.extracted_content).isOk = true
      · exact .isTrue (by intro r hr _; cases hr; exact hx)
      · exact .isFalse (by intro h; exact hx (h res rfl hs))
    · exact .isTrue (by intro r hr hsu; cases hr; exact absurd hsu hs)

/-- One serialized ledger update per completed successful fetch, applied in
the order the concurrent fetches happen to finish. -/
def applyUpdates : List (Backend × ℚ) → Costs → Costs
  | [], st => st
  | u :: rest, st => applyUpdates rest (recordCost u.1 u.2 st)

/-! ## Concrete fixtures used by counterexamples and witnesses -/

/-- A configuration with every environment variable unset: the provider
defaults to `deepseek`. -/
def cfgDefault : EnvConfig :=
  { crawl4ai_llm_provider := none, deepseek_api_key := none, deepseek_model := none,
    grok_api_key := none, grok_model := none, openai_api_key := none,
    openai_model := none, openai_nano_cost_per_m := none }

/-- A configuration selecting the `openai` provider with a key, enabling the
LLM-extraction stage. -/
def cfgOpenai : EnvConfig :=
  { cfgDefault with crawl4ai_llm_provider := some "openai", openai_api_key := some "k" }

/-- A successful render whose `extracted_content` is not valid JSON: the
return-dict construction of `_try_crawl4ai` raises on it after the cost has
been recorded. -/
def crawlAbort : CrawlResult :=
  { success := true, markdown := some "xxxx",
    extracted_content := some (.invalid "oops"), links := [], images := none }

/-- A Crawl4AI oracle whose render succeeds but whose result aborts the
return-dict construction (see `crawlAbort`). -/
def c4EnvAbort : C4Env :=
  { proxy := none, arun := .ok crawlAbort, llm_arun := .error "llm down" }

/-- A Crawl4AI oracle whose render raises. -/
def c4EnvDown : C4Env :=
  { proxy := none, arun := .error "net down", llm_arun := .error "llm down" }

/-- A Firecrawl oracle that succeeds with a truthy document. -/
def fcOk : FCEnv := ⟨.ok (some "page")⟩

/-- A Firecrawl oracle that raises. -/
def fcDown : FCEnv := ⟨.error "service down"⟩

/-- A successful render with no `extracted_content` (the shape a plain
`crawler.arun(url)` produces) and four characters of markdown. -/
def c7Crawl : CrawlResult :=
  { success := true, markdown := some "abcd", extracted_content := none,
    links := [], images := none }

/-- A Crawl4AI oracle around `c7Crawl`. -/
def c7Env : C4Env := { proxy := none, arun := .ok c7Crawl, llm_arun := .error "llm down" }

/-- A successful render whose `extracted_content` is invalid JSON, paired
below with an LLM extraction whose content is also invalid JSON. -/
def crawlParse : CrawlResult :=
  { success := true, markdown := some "hello",
    extracted_content := some (.invalid "bad"), links := [], images := none }

/-- A Crawl4AI oracle where both the LLM extraction content and the base
crawl's `extracted_content` fail to parse as JSON. -/
def c4EnvParseBoth : C4Env :=
  { proxy := none, arun := .ok crawlParse,
    llm_arun := .ok { success := true, extracted_content := some (.invalid "nope") } }

/-- A task whose main URL is unreachable on both backends while its LinkedIn
URL succeeds through Firecrawl. -/
def acmeCompany : Company :=
  { company_name := "Acme", website := "https://acme.test",
    linkedin_url := "https://linkedin.com/company/acme" }

/-- The oracles for `acmeCompany`: main site fails on both backends,
LinkedIn succeeds on the Firecrawl fallback. -/
def acmeEnv : CompanyEnv :=
  { mainEnv := { c4 := c4EnvDown, fc := fcDown },
    liEnv := { c4 := c4EnvDown, fc := fcOk } }

/-- A task with no URLs at all: its processing performs no fetch. -/
def blankTask : CompanyTaskE :=
  ({ company_name := "blank", website := "", linkedin_url := "" },
   { mainEnv := { c4 := c4EnvDown, fc := fcDown },
     liEnv := { c4 := c4EnvDown, fc := fcDown } })

/-- Twelve no-URL tasks, the batching scenario of the spec. -/
def tasks12 : List CompanyTaskE := List.replicate 12 blankTask

/-- A single routed fetch that takes the record-then-abort Crawl4AI path and
then fails on Firecrawl as well. -/
def abortJob : ScrapeJob := { url := "https://x.test", instr := none, env := ⟨c4EnvAbort, fcDown⟩ }

/-! ## Adapter-level helper lemmas -/

theorem tryCrawl4ai_arun_error (cfg : EnvConfig) (url : String) (instr : Option String)
    (e : C4Env) (st : Costs) (msg : String) (h : e.arun = .error msg) :
    tryCrawl4ai cfg url instr e st = (.fail msg, st) := by
  unfold tryCrawl4ai
  rw [h]

theorem tryCrawl4ai_render_failed (cfg : EnvConfig) (url : String) (instr : Option String)
    (e : C4Env) (st : Costs) (r : CrawlResult) (h : e.arun = .ok r)
    (hs : r.success = false) :
    tryCrawl4ai cfg url instr e st = (.noneR, st) := by
  unfold tryCrawl4ai
  rw [h]
  simp [hs]

theorem tryFirecrawl_ok (url : String) (instr : Option String) (e : FCEnv) (st : Costs)
    (d : String) (h : e.scrape = .ok (some d)) :
    tryFirecrawl url instr e st = (.ok 0.01 d, recordCost .firecrawl 0.01 st) := by
  unfold tryFirecrawl
  rw [h]

theorem tryFirecrawl_error (url : String) (instr : Option String) (e : FCEnv) (st : Costs)
    (msg : String) (h : e.scrape = .error msg) :
    tryFirecrawl url instr e st = (.fail msg, st) := by
  unfold tryFirecrawl
  rw [h]

theorem tryFirecrawl_falsy (url : String) (instr : Option String) (e : FCEnv) (st : Costs)
    (h : e.scrape = .ok none) :
    tryFirecrawl url instr e st = (.noneR, st) := by
  unfold tryFirecrawl
  rw [h]

/-- A render-stage Primary failure: an exception from `crawler.arun` or an
unsuccessful render.  These are the Primary failures that leave the ledger
untouched. -/
def PrimaryRenderFails (e : C4Env) : Prop :=
  (∃ msg, e.arun = .error msg) ∨ ∃ r, e.arun = .ok r ∧ r.success = false

theorem scrape_url_fallback_ok (cfg : EnvConfig) (url : String) (instr : Option String)
    (env : ScrapeEnv) (st : Costs) (d : String)
    (hp : PrimaryRenderFails env.c4) (hf : env.fc.scrape = .ok (some d)) :
    scrape_url cfg url instr env st = (.fcok 0.01 d, recordCost .firecrawl 0.01 st) := by
  unfold scrape_url
  rcases hp with ⟨msg, hm⟩ | ⟨r, hr, hs⟩
  · rw [tryCrawl4ai_arun_error cfg url instr env.c4 st msg hm]
    dsimp only
    rw [tryFirecrawl_ok url instr env.fc st d hf]
  · rw [tryCrawl4ai_render_failed cfg url instr env.c4 st r hr hs]
    dsimp only
    rw [tryFirecrawl_ok url instr env.fc st d hf]

theorem scrape_url_both_fail (cfg : EnvConfig) (url : String) (instr : Option String)
    (env : ScrapeEnv) (st : Costs)
    (hp : PrimaryRenderFails env.c4)
    (hf : (∃ msg, env.fc.scrape = .error msg) ∨ env.fc.scrape = .ok none) :
    scrape_url cfg url instr env st
      = (.bothFailed "Both Crawl4AI and Firecrawl failed" url, st) := by
  unfold scrape_url
  rcases hp with ⟨msg, hm⟩ | ⟨r, hr, hs⟩ <;>
    [rw [tryCrawl4ai_arun_error cfg url instr env.c4 st msg hm];
     rw [tryCrawl4ai_render_failed cfg url instr env.c4 st r hr hs]] <;>
  · dsimp only
    rcases hf with ⟨m2, hm2⟩ | hm2
    · rw [tryFirecrawl_error url instr env.fc st m2 hm2]
    · rw [tryFirecrawl_falsy url instr env.fc st hm2]

/-! ## C1 — Smart Router fallback to Firecrawl -/

/-- C1 (amended): if the Primary attempt fails at the render stage (a raised
exception or an unsuccessful render — the failure modes that record nothing)
and the Secondary fetch succeeds, then `scrape_url` returns `success=true`
with `source='firecrawl'` and cost `0.01`, the Firecrawl total increases by
exactly that cost, and the Crawl4AI total is unchanged.  As literally stated
the claim is false (`c1_counterexample`): a Primary fetch can also fail
*after* recording cost, when a successful render carries unparseable
`extracted_content`. -/
theorem c1_fallback_secondary (cfg : EnvConfig) (url : String) (instr : Option String)
    (env : ScrapeEnv) (st : Costs) (d : String)
    (hp : PrimaryRenderFails env.c4) (hf : env.fc.scrape = .ok (some d)) :
    (scrape_url cfg url instr env st).1.success = true ∧
    (scrape_url cfg url instr env st).1.source = some "firecrawl" ∧
    (scrape_url cfg url instr env st).1.getCost = 0.01 ∧
    (scrape_url cfg url instr env st).2.firecrawl = st.firecrawl + 0.01 ∧
    (scrape_url cfg url instr env st).2.crawl4ai = st.crawl4ai := by
  rw [scrape_url_fallback_ok cfg url instr env st d hp hf]
  exact ⟨rfl, rfl, rfl, rfl, rfl⟩

/-- Witness for C1 at a concrete input: Primary raises, Secondary succeeds. -/
theorem c1_fallback_secondary_witness :
    PrimaryRenderFails (ScrapeEnv.mk c4EnvDown fcOk).c4 ∧
    (ScrapeEnv.mk c4EnvDown fcOk).fc.scrape = .ok (some "page") ∧
    ((scrape_url cfgDefault "https://w.test" none (ScrapeEnv.mk c4EnvDown fcOk) costs0).1.success = true ∧
     (scrape_url cfgDefault "https://w.test" none (ScrapeEnv.mk c4EnvDown fcOk) costs0).1.source = some "firecrawl" ∧
     (scrape_url cfgDefault "https://w.test" none (ScrapeEnv.mk c4EnvDown fcOk) costs0).1.getCost = 0.01 ∧
     (scrape_url cfgDefault "https://w.test" none (ScrapeEnv.mk c4EnvDown fcOk) costs0).2.firecrawl = costs0.firecrawl + 0.01 ∧
     (scrape_url cfgDefault "https://w.test" none (ScrapeEnv.mk c4EnvDown fcOk) costs0).2.crawl4ai = costs0.crawl4ai) :=
  ⟨Or.inl ⟨"net down", rfl⟩, rfl,
   c1_fallback_secondary cfgDefault "https://w.test" none (ScrapeEnv.mk c4EnvDown fcOk) costs0
     "page" (Or.inl ⟨"net down", rfl⟩) rfl⟩

/-- C1 counterexample: the Primary fetch fails (it returns the `success=False`
dict after a successful render whose `extracted_content` is unparseable JSON),
the Secondary succeeds — yet the Crawl4AI total has changed, contradicting
the claim's "the Primary total is unchanged". -/
theorem c1_counterexample :
    (tryCrawl4ai cfgDefault "https://x.test" none c4EnvAbort costs0).1.isFail = true ∧
    (scrape_url cfgDefault "https://x.test" none (ScrapeEnv.mk c4EnvAbort fcOk) costs0).1.success = true ∧
    (scrape_url cfgDefault "https://x.test" none (ScrapeEnv.mk c4EnvAbort fcOk) costs0).1.source = some "firecrawl" ∧
    ¬ (scrape_url cfgDefault "https://x.test" none (ScrapeEnv.mk c4EnvAbort fcOk) costs0).2.crawl4ai
        = costs0.crawl4ai := by
  refine ⟨rfl, rfl, rfl, fun h => ?_⟩
  have hv : (scrape_url cfgDefault "https://x.test" none (ScrapeEnv.mk c4EnvAbort fcOk) costs0).2.crawl4ai
      = 0 + ((4 : ℕ) : ℚ) / 4 / 1000000 * 0.14 := rfl
  have h0 : costs0.crawl4ai = 0 := rfl
  rw [hv, h0] at h
  norm_num at h

/-! ## C2 — total failure of both backends -/

/-- C2 (amended): if the Primary attempt fails at the render stage and the
Secondary also fails (exception or falsy result), `scrape_url` returns the
aggregate-failure dict with `success=false` and the error message, and the
ledger (both totals and the page counter) is unchanged.  As literally stated
the claim is false (`c2_counterexample`): a Primary record-then-abort failure
leaves Crawl4AI cost and a page increment in the ledger even though the whole
routing decision fails. -/
theorem c2_total_failure (cfg : EnvConfig) (url : String) (instr : Option String)
    (env : ScrapeEnv) (st : Costs)
    (hp : PrimaryRenderFails env.c4)
    (hf : (∃ msg, env.fc.scrape = .error msg) ∨ env.fc.scrape = .ok none) :
    scrape_url cfg url instr env st
      = (.bothFailed "Both Crawl4AI and Firecrawl failed" url, st) ∧
    (scrape_url cfg url instr env st).1.success = false ∧
    (scrape_url cfg url instr env st).1.errorMsg = some "Both Crawl4AI and Firecrawl failed" ∧
    (scrape_url cfg url instr env st).2 = st := by
  rw [scrape_url_both_fail cfg url instr env st hp hf]
  exact ⟨rfl, rfl, rfl, rfl⟩

/-- Witness for C2 at a concrete input: Primary raises, Secondary raises. -/
theorem c2_total_failure_witness :
    PrimaryRenderFails (ScrapeEnv.mk c4EnvDown fcDown).c4 ∧
    ((∃ msg, (ScrapeEnv.mk c4EnvDown fcDown).fc.scrape = .error msg) ∨
      (ScrapeEnv.mk c4EnvDown fcDown).fc.scrape = .ok none) ∧
    (scrape_url cfgDefault "https://w.test" none (ScrapeEnv.mk c4EnvDown fcDown) costs0
      = (.bothFailed "Both Crawl4AI and Firecrawl failed" "https://w.test", costs0) ∧
     (scrape_url cfgDefault "https://w.test" none (ScrapeEnv.mk c4EnvDown fcDown) costs0).1.success = false ∧
     (scrape_url cfgDefault "https://w.test" none (ScrapeEnv.mk c4EnvDown fcDown) costs0).1.errorMsg
        = some "Both Crawl4AI and Firecrawl failed" ∧
     (scrape_url cfgDefault "https://w.test" none (ScrapeEnv.mk c4EnvDown fcDown) costs0).2 = costs0) :=
  ⟨Or.inl ⟨"net down", rfl⟩, Or.inl ⟨"service down", rfl⟩,
   c2_total_failure cfgDefault "https://w.test" none (ScrapeEnv.mk c4EnvDown fcDown) costs0
     (Or.inl ⟨"net down", rfl⟩) (Or.inl ⟨"service down", rfl⟩)⟩

/-- C2 counterexample: both backends fail for the URL, yet the routing
decision has recorded Crawl4AI cost and incremented the page counter
(Primary record-then-abort path), contradicting "every per-backend total and
the page counter are unchanged". -/
theorem c2_counterexample :
    (scrape_url cfgDefault "https://x.test" none (ScrapeEnv.mk c4EnvAbort fcDown) costs0).1.success = false ∧
    ¬ (scrape_url cfgDefault "https://x.test" none (ScrapeEnv.mk c4EnvAbort fcDown) costs0).2.total_pages
        = costs0.total_pages ∧
    ¬ (scrape_url cfgDefault "https://x.test" none (ScrapeEnv.mk c4EnvAbort fcDown) costs0).2.crawl4ai
        = costs0.crawl4ai := by
  refine ⟨rfl, fun h => by exact absurd h (by norm_num [show
      (scrape_url cfgDefault "https://x.test" none (ScrapeEnv.mk c4EnvAbort fcDown) costs0).2.total_pages
        = 1 from rfl, show costs0.total_pages = 0 from rfl]), fun h => ?_⟩
  have hv : (scrape_url cfgDefault "https://x.test" none (ScrapeEnv.mk c4EnvAbort fcDown) costs0).2.crawl4ai
      = 0 + ((4 : ℕ) : ℚ) / 4 / 1000000 * 0.14 := rfl
  have h0 : costs0.crawl4ai = 0 := rfl
  rw [hv, h0] at h
  norm_num at h

/-! ## C8 — fixed Firecrawl cost -/

/-- C8: every successful Secondary (Firecrawl) fetch records exactly the
fixed cost `0.01` per page — independent of the URL, the extraction
instructions and the fetched document. -/
theorem c8_firecrawl_fixed_cost (url : String) (instr : Option String) (d : String)
    (st : Costs) :
    tryFirecrawl url instr (FCEnv.mk (.ok (some d))) st
      = (.ok 0.01 d, recordCost .firecrawl 0.01 st) ∧
    (recordCost Backend.firecrawl 0.01 st).firecrawl = st.firecrawl + 0.01 ∧
    (recordCost Backend.firecrawl 0.01 st).crawl4ai = st.crawl4ai ∧
    (recordCost Backend.firecrawl 0.01 st).total_pages = st.total_pages + 1 :=
  ⟨rfl, rfl, rfl, rfl⟩

/-! ## C10 — `None` adapter results and how the router treats them -/

/-- C10: when the Primary render completes without an exception but reports
`success == False`, `_try_crawl4ai` returns Python `None` (not a failure
dict) and leaves the ledger unchanged; when the Secondary service returns a
falsy result without raising, `_try_firecrawl` returns `None`; the router
treats such a `None` exactly like a failed attempt — it falls through to the
next backend or to the total-failure result — and records no cost for it. -/
theorem c10_none_results (cfg : EnvConfig) (url : String) (instr : Option String)
    (proxy : Option String) (md : Option String) (ec : Option Doc)
    (links : List String) (imgs : Option (List String)) (le : Except String LLMResult)
    (st : Costs) (d : String) :
    tryCrawl4ai cfg url instr
        (C4Env.mk proxy (.ok (CrawlResult.mk false md ec links imgs)) le) st
      = (.noneR, st) ∧
    tryFirecrawl url instr (FCEnv.mk (.ok none)) st = (.noneR, st) ∧
    scrape_url cfg url instr
        (ScrapeEnv.mk (C4Env.mk proxy (.ok (CrawlResult.mk false md ec links imgs)) le)
          (FCEnv.mk (.ok none))) st
      = (.bothFailed "Both Crawl4AI and Firecrawl failed" url, st) ∧
    scrape_url cfg url instr
        (ScrapeEnv.mk (C4Env.mk proxy (.ok (CrawlResult.mk false md ec links imgs)) le)
          (FCEnv.mk (.ok (some d)))) st
      = (.fcok 0.01 d, recordCost .firecrawl 0.01 st) :=
  ⟨rfl, rfl, rfl, rfl⟩

/-! ## C3 — structured-parse failure degradation in the Primary adapter -/

theorem get_llm_config_openai (cfg : EnvConfig)
    (hp : cfg.crawl4ai_llm_provider = some "openai") :
    get_llm_config cfg = ("openai", cfg.openai_api_key, cfg.openai_model.getD "gpt-5-nano") := by
  unfold get_llm_config
  rw [hp]
  rw [Option.getD_some]
  rw [if_neg (by decide), if_neg (by decide)]

theorem llmExtractedJson_parse_failure (api_key : Option String) (e : C4Env)
    (llm : LLMResult) (s : String)
    (hkey : optStrTruthy api_key = true) (hllm : e.llm_arun = .ok llm)
    (hlsu : llm.success = true) (hlc : llm.extracted_content = some (.invalid s))
    (hsne : s ≠ "") :
    llmExtractedJson "openai" api_key e = none := by
  unfold llmExtractedJson
  rw [hllm]
  rw [if_pos ⟨rfl, hkey⟩]
  dsimp only
  rw [hlc]
  rw [if_pos ⟨hlsu, by simp [optDocTruthy, Doc.truthy, hsne]⟩]
  rfl

theorem c4Extracted_no_content (ec : Option Doc) (hec : optDocTruthy ec = false) :
    c4Extracted none ec = .ok none := by
  unfold c4Extracted
  cases ec with
  | none => rfl
  | some d =>
    simp only [optDocTruthy] at hec
    simp [jsonOptTruthy, hec]

/-- C3 (amended): when the page renders successfully and the LLM
structured-extraction content fails to parse as JSON, the Primary fetch still
returns `success=true` with the raw rendered markdown and
`payload.extracted` absent — *provided* the base crawl result's own
`extracted_content` is absent or empty.  As literally stated the claim is
false (`c3_counterexample`): when the base crawl's `extracted_content` is
present and unparseable, the unprotected `json.loads` on line 222 raises and
the fetch returns `success=false`. -/
theorem c3_parse_degradation (cfg : EnvConfig) (url : String) (instr : Option String)
    (e : C4Env) (st : Costs) (r : CrawlResult) (llm : LLMResult) (s : String)
    (hprov : cfg.crawl4ai_llm_provider = some "openai")
    (hkey : optStrTruthy cfg.openai_api_key = true)
    (hr : e.arun = .ok r) (hs : r.success = true)
    (hllm : e.llm_arun = .ok llm) (hlsu : llm.success = true)
    (hlc : llm.extracted_content = some (.invalid s)) (hsne : s ≠ "")
    (hec : optDocTruthy r.extracted_content = false) :
    tryCrawl4ai cfg url instr e st
      = (.ok { provider := "openai", model := cfg.openai_model.getD "gpt-5-nano",
               cost := crawl4aiCost "openai" cfg r.markdown,
               markdown := r.markdown, extracted := none,
               links := r.links, images := r.images.getD [],
               proxy_used := e.proxy },
         recordCost .crawl4ai (crawl4aiCost "openai" cfg r.markdown) st) := by
  have hcfg := get_llm_config_openai cfg hprov
  unfold tryCrawl4ai
  rw [hr, hcfg]
  dsimp only
  rw [if_pos hs]
  rw [llmExtractedJson_parse_failure cfg.openai_api_key e llm s hkey hllm hlsu hlc hsne]
  rw [c4Extracted_no_content r.extracted_content hec]

/-- A successful render with no `extracted_content`, used by the C3 witness. -/
def llmOnlyCrawl : CrawlResult :=
  { success := true, markdown := some "body", extracted_content := none,
    links := [], images := none }

/-- A Crawl4AI oracle whose render succeeds and whose LLM extraction returns
unparseable content. -/
def c4EnvLLMBad : C4Env :=
  { proxy := none, arun := .ok llmOnlyCrawl,
    llm_arun := .ok { success := true, extracted_content := some (.invalid "nope") } }

/-- Witness for C3 at a concrete input. -/
theorem c3_parse_degradation_witness :
    (cfgOpenai.crawl4ai_llm_provider = some "openai") ∧
    (optStrTruthy cfgOpenai.openai_api_key = true) ∧
    (c4EnvLLMBad.arun = .ok llmOnlyCrawl) ∧
    (llmOnlyCrawl.success = true) ∧
    (optDocTruthy llmOnlyCrawl.extracted_content = false) ∧
    (tryCrawl4ai cfgOpenai "https://w.test" none c4EnvLLMBad costs0
      = (.ok { provider := "openai", model := cfgOpenai.openai_model.getD "gpt-5-nano",
               cost := crawl4aiCost "openai" cfgOpenai llmOnlyCrawl.markdown,
               markdown := llmOnlyCrawl.markdown, extracted := none,
               links := llmOnlyCrawl.links, images := llmOnlyCrawl.images.getD [],
               proxy_used := c4EnvLLMBad.proxy },
         recordCost .crawl4ai (crawl4aiCost "openai" cfgOpenai llmOnlyCrawl.markdown) costs0)) :=
  ⟨rfl, rfl, rfl, rfl, rfl,
   c3_parse_degradation cfgOpenai "https://w.test" none c4EnvLLMBad costs0 llmOnlyCrawl
     { success := true, extracted_content := some (.invalid "nope") } "nope"
     rfl rfl rfl rfl rfl rfl rfl (by decide) rfl⟩

/-- C3 counterexample: the page renders successfully, the structured
extraction content (both the LLM text and the base crawl's
`extracted_content`) fails to parse as JSON — and the Primary fetch returns
the `success=False` dict, not a success, contradicting "a structured-parse
failure never turns the overall Primary fetch into a failure". -/
theorem c3_counterexample :
    crawlParse.success = true ∧
    (jsonLoads (Doc.invalid "nope")).isOk = false ∧
    (jsonLoads (Doc.invalid "bad")).isOk = false ∧
    (tryCrawl4ai cfgOpenai "https://x.test" none c4EnvParseBoth costs0).1.isFail = true ∧
    (tryCrawl4ai cfgOpenai "https://x.test" none c4EnvParseBoth costs0).1.isOk = false :=
  ⟨rfl, rfl, rfl, rfl, rfl⟩

/-! ## C7 — Crawl4AI cost formula -/

/-- C7: every successful Primary fetch records
`(estimated_token_count / 1,000,000) * price_per_million`, where the token
count is the rendered markdown's character length divided by four (zero when
absent or empty, see `estimatedTokens`) and the price is `0.14` for
`deepseek`, `0.10` for `grok`, and the `OPENAI_NANO_COST_PER_M` value
(default `0.5`) otherwise; the page counter increments by one. -/
theorem c7_crawl4ai_cost_formula (cfg : EnvConfig) (url : String) (instr : Option String)
    (e : C4Env) (st : Costs) (r : CrawlResult) (ext : Option JsonVal)
    (hr : e.arun = .ok r) (hs : r.success = true)
    (hx : c4Extracted (llmExtractedJson (get_llm_config cfg).1 (get_llm_config cfg).2.1 e)
            r.extracted_content = .ok ext) :
    (tryCrawl4ai cfg url instr e st).1
      = .ok { provider := (get_llm_config cfg).1, model := (get_llm_config cfg).2.2,
              cost := estimatedTokens r.markdown / 1000000 *
                (if (get_llm_config cfg).1 = "deepseek" then 0.14
                 else if (get_llm_config cfg).1 = "grok" then 0.10
                 else cfg.openai_nano_cost_per_m.getD 0.5),
              markdown := r.markdown, extracted := ext, links := r.links,
              images := r.images.getD [], proxy_used := e.proxy } ∧
    (tryCrawl4ai cfg url instr e st).2.crawl4ai
      = st.crawl4ai + estimatedTokens r.markdown / 1000000 *
          (if (get_llm_config cfg).1 = "deepseek" then 0.14
           else if (get_llm_config cfg).1 = "grok" then 0.10
           else cfg.openai_nano_cost_per_m.getD 0.5) ∧
    (tryCrawl4ai cfg url instr e st).2.total_pages = st.total_pages + 1 := by
  have hcost : crawl4aiCost (get_llm_config cfg).1 cfg r.markdown
      = estimatedTokens r.markdown / 1000000 *
          (if (get_llm_config cfg).1 = "deepseek" then 0.14
           else if (get_llm_config cfg).1 = "grok" then 0.10
           else cfg.openai_nano_cost_per_m.getD 0.5) := by
    unfold crawl4aiCost
    split_ifs <;> rfl
  unfold tryCrawl4ai
  rw [hr]
  dsimp only
  rw [if_pos hs, hx]
  dsimp only
  rw [hcost]
  exact ⟨rfl, rfl, rfl⟩

/-- Witness for C7 at a concrete input: default (deepseek) provider, four
characters of markdown. -/
theorem c7_crawl4ai_cost_formula_witness :
    (c7Env.arun = .ok c7Crawl) ∧
    (c7Crawl.success = true) ∧
    (c4Extracted (llmExtractedJson (get_llm_config cfgDefault).1 (get_llm_config cfgDefault).2.1 c7Env)
        c7Crawl.extracted_content = .ok none) ∧
    ((tryCrawl4ai cfgDefault "https://w.test" none c7Env costs0).2.crawl4ai
      = costs0.crawl4ai + estimatedTokens c7Crawl.markdown / 1000000 *
          (if (get_llm_config cfgDefault).1 = "deepseek" then 0.14
           else if (get_llm_config cfgDefault).1 = "grok" then 0.10
           else cfgDefault.openai_nano_cost_per_m.getD 0.5)) ∧
    ((tryCrawl4ai cfgDefault "https://w.test" none c7Env costs0).2.total_pages
      = costs0.total_pages + 1) :=
  ⟨rfl, rfl, rfl,
   (c7_crawl4ai_cost_formula cfgDefault "https://w.test" none c7Env costs0 c7Crawl none
     rfl rfl rfl).2.1,
   (c7_crawl4ai_cost_formula cfgDefault "https://w.test" none c7Env costs0 c7Crawl none
     rfl rfl rfl).2.2⟩

/-! ## C4 — partial company failure (main site fails, LinkedIn succeeds) -/

/-- C4 (amended): for a task whose cleaned primary URL fails on both backends
while the LinkedIn URL succeeds, the produced company result contains *no*
`'main_site'` entry at all — `scrape_company_data` stores an entry only for a
successful fetch — together with a successful `'linkedin'` entry, and
`scraping_cost` equals only the LinkedIn fetch's cost.  The claim's "contains
a failed main-site entry" part is false on the code (`c4_counterexample`). -/
theorem c4_company_linkedin_only (cfg : EnvConfig) (company : Company) (env : CompanyEnv)
    (st : Costs)
    (hw : clean_url company.website ≠ "")
    (hl1 : company.linkedin_url ≠ "")
    (hl2 : pyStartsWith company.linkedin_url "http" = true)
    (hmf : (scrape_url cfg (clean_url company.website) (some (extractionPrompt company))
            env.mainEnv st).1.success = false)
    (hls : (scrape_url cfg company.linkedin_url
            (some "Extract company size, recent posts, and employee count") env.liEnv
            (scrape_url cfg (clean_url company.website) (some (extractionPrompt company))
              env.mainEnv st).2).1.success = true) :
    (scrape_company_data cfg company env st).1.scraping_results
      = [("linkedin", SREntry.result (scrape_url cfg company.linkedin_url
            (some "Extract company size, recent posts, and employee count") env.liEnv
            (scrape_url cfg (clean_url company.website) (some (extractionPrompt company))
              env.mainEnv st).2).1)] ∧
    ((scrape_company_data cfg company env st).1.scraping_results.lookup "main_site" = none) ∧
    (scrape_company_data cfg company env st).1.scraping_cost
      = (scrape_url cfg company.linkedin_url
            (some "Extract company size, recent posts, and employee count") env.liEnv
            (scrape_url cfg (clean_url company.website) (some (extractionPrompt company))
              env.mainEnv st).2).1.getCost := by
  unfold scrape_company_data
  dsimp only
  rw [if_pos hw]
  rw [if_neg (by rw [hmf]; exact Bool.false_ne_true)]
  dsimp only
  rw [if_pos ⟨hl1, hl2⟩]
  rw [if_pos hls]
  dsimp only
  refine ⟨rfl, rfl, ?_⟩
  rw [zero_add]

/-- Witness for C4 at a concrete input: `acmeCompany` with both backends
failing for the main site and Firecrawl succeeding for LinkedIn. -/
theorem c4_company_linkedin_only_witness :
    (clean_url acmeCompany.website ≠ "") ∧
    (acmeCompany.linkedin_url ≠ "") ∧
    (pyStartsWith acmeCompany.linkedin_url "http" = true) ∧
    ((scrape_url cfgDefault (clean_url acmeCompany.website) (some (extractionPrompt acmeCompany))
        acmeEnv.mainEnv costs0).1.success = false) ∧
    ((scrape_url cfgDefault acmeCompany.linkedin_url
        (some "Extract company size, recent posts, and employee count") acmeEnv.liEnv
        (scrape_url cfgDefault (clean_url acmeCompany.website) (some (extractionPrompt acmeCompany))
          acmeEnv.mainEnv costs0).2).1.success = true) ∧
    ((scrape_company_data cfgDefault acmeCompany acmeEnv costs0).1.scraping_results.lookup "main_site"
       = none) ∧
    ((scrape_company_data cfgDefault acmeCompany acmeEnv costs0).1.scraping_cost
       = (scrape_url cfgDefault acmeCompany.linkedin_url
            (some "Extract company size, recent posts, and employee count") acmeEnv.liEnv
            (scrape_url cfgDefault (clean_url acmeCompany.website) (some (extractionPrompt acmeCompany))
              acmeEnv.mainEnv costs0).2).1.getCost) :=
  ⟨by decide, by decide, rfl, rfl, rfl,
   (c4_company_linkedin_only cfgDefault acmeCompany acmeEnv costs0 (by decide) (by decide) rfl rfl rfl).2.1,
   (c4_company_linkedin_only cfgDefault acmeCompany acmeEnv costs0 (by decide) (by decide) rfl rfl rfl).2.2⟩

/-- C4 counterexample: main URL fails on both backends, LinkedIn succeeds —
and the result has *no* `'main_site'` entry (the claim asserts a failed one
is present); the cost equals the LinkedIn cost `0.01`. -/
theorem c4_counterexample :
    ((scrape_url cfgDefault (clean_url acmeCompany.website) (some (extractionPrompt acmeCompany))
        acmeEnv.mainEnv costs0).1.success = false) ∧
    ((scrape_company_data cfgDefault acmeCompany acmeEnv costs0).1.scraping_results.lookup "main_site"
       = none) ∧
    (((scrape_company_data cfgDefault acmeCompany acmeEnv costs0).1.scraping_results.lookup "linkedin").isSome
       = true) ∧
    ((scrape_company_data cfgDefault acmeCompany acmeEnv costs0).1.scraping_cost = 0.01) := by
  refine ⟨rfl, rfl, rfl, ?_⟩
  have hv : (scrape_company_data cfgDefault acmeCompany acmeEnv costs0).1.scraping_cost
      = 0 + (0.01 : ℚ) := rfl
  rw [hv]
  norm_num

/-! ## C5 — Cost Ledger invariants over a run -/

theorem estimatedTokens_nonneg (md : Option String) : 0 ≤ estimatedTokens md := by
  cases md with
  | none => exact le_refl 0
  | some s =>
    simp only [estimatedTokens]
    split_ifs
    · exact le_refl 0
    · positivity

theorem crawl4aiCost_nonneg (provider : String) (cfg : EnvConfig) (md : Option String)
    (hn : 0 ≤ cfg.openai_nano_cost_per_m.getD 0.5) :
    0 ≤ crawl4aiCost provider cfg md := by
  have ht := estimatedTokens_nonneg md
  have htm : 0 ≤ estimatedTokens md / 1000000 := by
    apply div_nonneg ht
    norm_num
  unfold crawl4aiCost
  split_ifs
  · exact mul_nonneg htm (by norm_num)
  · exact mul_nonneg htm (by norm_num)
  · exact mul_nonneg htm hn

theorem totalCost_recordCost (b : Backend) (c : ℚ) (st : Costs) :
    totalCost (recordCost b c st) = totalCost st + c := by
  cases b <;> simp [totalCost, recordCost] <;> ring

/-- Componentwise order on ledgers, used to state monotonicity. -/
def stLe (a b : Costs) : Prop :=
  a.crawl4ai ≤ b.crawl4ai ∧ a.firecrawl ≤ b.firecrawl ∧ a.total_pages ≤ b.total_pages

theorem stLe_refl (a : Costs) : stLe a a :=
  ⟨le_refl _, le_refl _, le_refl _⟩

theorem stLe_trans (a b c : Costs) (h1 : stLe a b) (h2 : stLe b c) : stLe a c :=
  ⟨le_trans h1.1 h2.1, le_trans h1.2.1 h2.2.1, le_trans h1.2.2 h2.2.2⟩

theorem stLe_record (b : Backend) (c : ℚ) (st : Costs) (hc : 0 ≤ c) :
    stLe st (recordCost b c st) := by
  cases b
  · exact ⟨le_add_of_nonneg_right hc, le_refl _, Nat.le_succ _⟩
  · exact ⟨le_refl _, le_add_of_nonneg_right hc, Nat.le_succ _⟩

theorem tryCrawl4ai_ok_case (cfg : EnvConfig) (url : String) (instr : Option String)
    (e : C4Env) (st : Costs) (r : CrawlResult)
    (hr : e.arun = .ok r) (hs : r.success = true) :
    (tryCrawl4ai cfg url instr e st).2
      = recordCost .crawl4ai (crawl4aiCost (get_llm_config cfg).1 cfg r.markdown) st ∧
    ((c4Extracted (llmExtractedJson (get_llm_config cfg).1 (get_llm_config cfg).2.1 e)
        r.extracted_content).isOk = true →
      ∃ ext, (tryCrawl4ai cfg url instr e st).1
        = .ok { provider := (get_llm_config cfg).1, model := (get_llm_config cfg).2.2,
                cost := crawl4aiCost (get_llm_config cfg).1 cfg r.markdown,
                markdown := r.markdown, extracted := ext, links := r.links,
                images := r.images.getD [], proxy_used := e.proxy }) := by
  unfold tryCrawl4ai
  rw [hr]
  dsimp only
  rw [if_pos hs]
  cases hx : c4Extracted (llmExtractedJson (get_llm_config cfg).1 (get_llm_config cfg).2.1 e)
      r.extracted_content with
  | error msg =>
    exact ⟨rfl, fun h => nomatch h⟩
  | ok ext =>
    exact ⟨rfl, fun _ => ⟨ext, rfl⟩⟩

theorem scrape_url_state (cfg : EnvConfig) (url : String) (instr : Option String)
    (env : ScrapeEnv) (st : Costs) :
    (scrape_url cfg url instr env st).2 = st ∨
    (scrape_url cfg url instr env st).2 = recordCost .firecrawl 0.01 st ∨
    (∃ r, env.c4.arun = .ok r ∧ r.success = true ∧
      ((scrape_url cfg url instr env st).2
          = recordCost .crawl4ai (crawl4aiCost (get_llm_config cfg).1 cfg r.markdown) st ∨
       (scrape_url cfg url instr env st).2
          = recordCost .firecrawl 0.01
              (recordCost .crawl4ai (crawl4aiCost (get_llm_config cfg).1 cfg r.markdown) st))) := by
  unfold scrape_url
  cases ha : env.c4.arun with
  | error msg =>
    rw [tryCrawl4ai_arun_error cfg url instr env.c4 st msg ha]
    dsimp only
    cases hf : env.fc.scrape with
    | error m2 =>
      rw [tryFirecrawl_error url instr env.fc st m2 hf]
      exact Or.inl rfl
    | ok od =>
      cases od with
      | none =>
        rw [tryFirecrawl_falsy url instr env.fc st hf]
        exact Or.inl rfl
      | some d =>
        rw [tryFirecrawl_ok url instr env.fc st d hf]
        exact Or.inr (Or.inl rfl)
  | ok r =>
    by_cases hs : r.success = true
    · have hok := tryCrawl4ai_ok_case cfg url instr env.c4 st r ha hs
      cases hout : (tryCrawl4ai cfg url instr env.c4 st).1 with
      | ok info =>
        have hpair : tryCrawl4ai cfg url instr env.c4 st
            = (.ok info, recordCost .crawl4ai (crawl4aiCost (get_llm_config cfg).1 cfg r.markdown) st) := by
          rw [show tryCrawl4ai cfg url instr env.c4 st
              = ((tryCrawl4ai cfg url instr env.c4 st).1, (tryCrawl4ai cfg url instr env.c4 st).2) from rfl,
            hout, hok.1]
        rw [hpair]
        exact Or.inr (Or.inr ⟨r, rfl, hs, Or.inl rfl⟩)
      | fail msg =>
        have hpair : tryCrawl4ai cfg url instr env.c4 st
            = (.fail msg, recordCost .crawl4ai (crawl4aiCost (get_llm_config cfg).1 cfg r.markdown) st) := by
          rw [show tryCrawl4ai cfg url instr env.c4 st
              = ((tryCrawl4ai cfg url instr env.c4 st).1, (tryCrawl4ai cfg url instr env.c4 st).2) from rfl,
            hout, hok.1]
        rw [hpair]
        dsimp only
        cases hf : env.fc.scrape with
        | error m2 =>
          rw [tryFirecrawl_error url instr env.fc _ m2 hf]
          exact Or.inr (Or.inr ⟨r, rfl, hs, Or.inl rfl⟩)
        | ok od =>
          cases od with
          | none =>
            rw [tryFirecrawl_falsy url instr env.fc _ hf]
            exact Or.inr (Or.inr ⟨r, rfl, hs, Or.inl rfl⟩)
          | some d =>
            rw [tryFirecrawl_ok url instr env.fc _ d hf]
            exact Or.inr (Or.inr ⟨r, rfl, hs, Or.inr rfl⟩)
      | noneR =>
        have hpair : tryCrawl4ai cfg url instr env.c4 st
            = (.noneR, recordCost .crawl4ai (crawl4aiCost (get_llm_config cfg).1 cfg r.markdown) st) := by
          rw [show tryCrawl4ai cfg url instr env.c4 st
              = ((tryCrawl4ai cfg url instr env.c4 st).1, (tryCrawl4ai cfg url instr env.c4 st).2) from rfl,
            hout, hok.1]
        rw [hpair]
        dsimp only
        cases hf : env.fc.scrape with
        | error m2 =>
          rw [tryFirecrawl_error url instr env.fc _ m2 hf]
          exact Or.inr (Or.inr ⟨r, rfl, hs, Or.inl rfl⟩)
        | ok od =>
          cases od with
          | none =>
            rw [tryFirecrawl_falsy url instr env.fc _ hf]
            exact Or.inr (Or.inr ⟨r, rfl, hs, Or.inl rfl⟩)
          | some d =>
            rw [tryFirecrawl_ok url instr env.fc _ d hf]
            exact Or.inr (Or.inr ⟨r, rfl, hs, Or.inr rfl⟩)
    · have hs' : r.success = false := by
        cases hb : r.success
        · rfl
        · exact absurd hb hs
      rw [tryCrawl4ai_render_failed cfg url instr env.c4 st r ha hs']
      dsimp only
      cases hf : env.fc.scrape with
      | error m2 =>
        rw [tryFirecrawl_error url instr env.fc st m2 hf]
        exact Or.inl rfl
      | ok od =>
        cases od with
        | none =>
          rw [tryFirecrawl_falsy url instr env.fc st hf]
          exact Or.inl rfl
        | some d =>
          rw [tryFirecrawl_ok url instr env.fc st d hf]
          exact Or.inr (Or.inl rfl)

theorem scrape_url_total_delta (cfg : EnvConfig) (url : String) (instr : Option String)
    (env : ScrapeEnv) (st : Costs) (hsafe : SafeC4 cfg env.c4) :
    totalCost (scrape_url cfg url instr env st).2
      = totalCost st
        + (if (scrape_url cfg url instr env st).1.success then
            (scrape_url cfg url instr env st).1.getCost else 0) := by
  unfold scrape_url
  cases ha : env.c4.arun with
  | error msg =>
    rw [tryCrawl4ai_arun_error cfg url instr env.c4 st msg ha]
    dsimp only
    cases hf : env.fc.scrape with
    | error m2 =>
      rw [tryFirecrawl_error url instr env.fc st m2 hf]
      simp [ScrapeResult.success]
    | ok od =>
      cases od with
      | none =>
        rw [tryFirecrawl_falsy url instr env.fc st hf]
        simp [ScrapeResult.success]
      | some d =>
        rw [tryFirecrawl_ok url instr env.fc st d hf]
        simp [ScrapeResult.success, ScrapeResult.getCost, totalCost_recordCost]
  | ok r =>
    by_cases hs : r.success = true
    · have hok := tryCrawl4ai_ok_case cfg url instr env.c4 st r ha hs
      have hx : (c4Extracted (llmExtractedJson (get_llm_config cfg).1 (get_llm_config cfg).2.1 env.c4)
          r.extracted_content).isOk = true := hsafe r ha hs
      obtain ⟨ext, hout⟩ := hok.2 hx
      have hpair : tryCrawl4ai cfg url instr env.c4 st
          = (.ok { provider := (get_llm_config cfg).1, model := (get_llm_config cfg).2.2,
                   cost := crawl4aiCost (get_llm_config cfg).1 cfg r.markdown,
                   markdown := r.markdown, extracted := ext, links := r.links,
                   images := r.images.getD [], proxy_used := env.c4.proxy },
             recordCost .crawl4ai (crawl4aiCost (get_llm_config cfg).1 cfg r.markdown) st) := by
        rw [show tryCrawl4ai cfg url instr env.c4 st
            = ((tryCrawl4ai cfg url instr env.c4 st).1, (tryCrawl4ai cfg url instr env.c4 st).2) from rfl,
          hout, hok.1]
      rw [hpair]
      simp [ScrapeResult.success, ScrapeResult.getCost, totalCost_recordCost]
    · have hs' : r.success = false := by
        cases hb : r.success
        · rfl
        · exact absurd hb hs
      rw [tryCrawl4ai_render_failed cfg url instr env.c4 st r ha hs']
      dsimp only
      cases hf : env.fc.scrape with
      | error m2 =>
        rw [tryFirecrawl_error url instr env.fc st m2 hf]
        simp [ScrapeResult.success]
      | ok od =>
        cases od with
        | none =>
          rw [tryFirecrawl_falsy url instr env.fc st hf]
          simp [ScrapeResult.success]
        | some d =>
          rw [tryFirecrawl_ok url instr env.fc st d hf]
          simp [ScrapeResult.success, ScrapeResult.getCost, totalCost_recordCost]

theorem scrape_url_mono (cfg : EnvConfig) (url : String) (instr : Option String)
    (env : ScrapeEnv) (st : Costs) (hn : 0 ≤ cfg.openai_nano_cost_per_m.getD 0.5) :
    stLe st (scrape_url cfg url instr env st).2 := by
  rcases scrape_url_state cfg url instr env st with h | h | ⟨r, _, _, h | h⟩ <;> rw [h]
  · exact stLe_refl st
  · exact stLe_record .firecrawl 0.01 st (by norm_num)
  · exact stLe_record .crawl4ai _ st (crawl4aiCost_nonneg _ cfg r.markdown hn)
  · exact stLe_trans _ _ _
      (stLe_record .crawl4ai _ st (crawl4aiCost_nonneg _ cfg r.markdown hn))
      (stLe_record .firecrawl 0.01 _ (by norm_num))

theorem runScrapes_total (cfg : EnvConfig) :
    ∀ (jobs : List ScrapeJob) (st : Costs),
      (∀ j ∈ jobs, SafeC4 cfg j.env.c4) →
      totalCost (runScrapes cfg jobs st).2
        = totalCost st
          + (((runScrapes cfg jobs st).1.filter ScrapeResult.success).map ScrapeResult.getCost).sum := by
  intro jobs
  induction jobs with
  | nil =>
    intro st _
    simp [runScrapes]
  | cons j rest ih =>
    intro st hsafe
    have hj : SafeC4 cfg j.env.c4 := hsafe j (List.mem_cons_self j rest)
    have hrest : ∀ x ∈ rest, SafeC4 cfg x.env.c4 := fun x hx => hsafe x (List.mem_cons_of_mem j hx)
    have hstep := scrape_url_total_delta cfg j.url j.instr j.env st hj
    simp only [runScrapes]
    rw [ih ((scrape_url cfg j.url j.instr j.env st).2) hrest, hstep]
    by_cases hsucc : (scrape_url cfg j.url j.instr j.env st).1.success = true
    · simp [List.filter_cons, hsucc]
      ring
    · have hsucc' : (scrape_url cfg j.url j.instr j.env st).1.success = false := by
        cases hb : (scrape_url cfg j.url j.instr j.env st).1.success
        · rfl
        · exact absurd hb hsucc
      simp [List.filter_cons, hsucc']

theorem runScrapes_mono (cfg : EnvConfig) (hn : 0 ≤ cfg.openai_nano_cost_per_m.getD 0.5) :
    ∀ (jobs : List ScrapeJob) (st : Costs), stLe st (runScrapes cfg jobs st).2 := by
  intro jobs
  induction jobs with
  | nil =>
    intro st
    exact stLe_refl st
  | cons j rest ih =>
    intro st
    simp only [runScrapes]
    exact stLe_trans _ _ _ (scrape_url_mono cfg j.url j.instr j.env st hn)
      (ih ((scrape_url cfg j.url j.instr j.env st).2))

/-- C5 (amended): over any run of routed fetches whose Primary oracles cannot
abort during result construction (`SafeC4` — in particular any run where the
base crawl carries no `extracted_content`), the ledger total at every
observation point equals the initial total plus the sum of the costs of the
successful results observed so far; per-backend totals and the page counter
are monotonically non-decreasing (given a non-negative configured price);
every estimated Crawl4AI cost is non-negative; and each `recordCost` adds its
cost to exactly one backend total and increments the page counter by exactly
one.  As literally stated the claim is false (`c5_counterexample`): on the
record-then-abort Primary path a failed fetch leaves recorded cost in the
ledger, breaking the total-equals-sum-of-successful-costs invariant. -/
theorem c5_ledger_invariant (cfg : EnvConfig) (jobs : List ScrapeJob) (st : Costs)
    (hn : 0 ≤ cfg.openai_nano_cost_per_m.getD 0.5)
    (hsafe : ∀ j ∈ jobs, SafeC4 cfg j.env.c4) :
    (totalCost (runScrapes cfg jobs st).2
      = totalCost st
        + (((runScrapes cfg jobs st).1.filter ScrapeResult.success).map ScrapeResult.getCost).sum) ∧
    (st.crawl4ai ≤ (runScrapes cfg jobs st).2.crawl4ai ∧
     st.firecrawl ≤ (runScrapes cfg jobs st).2.firecrawl ∧
     st.total_pages ≤ (runScrapes cfg jobs st).2.total_pages) ∧
    (∀ provider md, 0 ≤ crawl4aiCost provider cfg md) ∧
    (∀ (b : Backend) (c : ℚ) (s : Costs),
      (recordCost b c s).total_pages = s.total_pages + 1 ∧
      totalCost (recordCost b c s) = totalCost s + c) :=
  ⟨runScrapes_total cfg jobs st hsafe,
   runScrapes_mono cfg hn jobs st,
   fun provider md => crawl4aiCost_nonneg provider cfg md hn,
   fun b c s => ⟨by cases b <;> rfl, totalCost_recordCost b c s⟩⟩

/-- Witness for C5 at a concrete input: one fetch that fails at the Primary
render and succeeds on Firecrawl. -/
theorem c5_ledger_invariant_witness :
    (0 ≤ cfgDefault.openai_nano_cost_per_m.getD 0.5) ∧
    (∀ j ∈ [ScrapeJob.mk "https://w.test" none (ScrapeEnv.mk c4EnvDown fcOk)],
      SafeC4 cfgDefault j.env.c4) ∧
    (totalCost (runScrapes cfgDefault [ScrapeJob.mk "https://w.test" none (ScrapeEnv.mk c4EnvDown fcOk)] costs0).2
      = totalCost costs0
        + (((runScrapes cfgDefault [ScrapeJob.mk "https://w.test" none (ScrapeEnv.mk c4EnvDown fcOk)] costs0).1.filter
              ScrapeResult.success).map ScrapeResult.getCost).sum) :=
  ⟨by norm_num [cfgDefault],
   fun j hj => by
     rw [List.mem_singleton] at hj
     subst hj
     intro r hr _
     exact Except.noConfusion hr,
   (c5_ledger_invariant cfgDefault [ScrapeJob.mk "https://w.test" none (ScrapeEnv.mk c4EnvDown fcOk)] costs0
     (by norm_num [cfgDefault])
     (fun j hj => by
       rw [List.mem_singleton] at hj
       subst hj
       intro r hr _
       exact Except.noConfusion hr)).1⟩

/-- C5 counterexample: a single fetch that takes the record-then-abort
Primary path and then fails on Firecrawl yields no successful result, yet the
ledger total has grown — the total no longer equals the sum of successful
fetch costs. -/
theorem c5_counterexample :
    ((runScrapes cfgDefault [abortJob] costs0).1.filter ScrapeResult.success = []) ∧
    ¬ (totalCost (runScrapes cfgDefault [abortJob] costs0).2
        = totalCost costs0
          + (((runScrapes cfgDefault [abortJob] costs0).1.filter ScrapeResult.success).map
              ScrapeResult.getCost).sum) := by
  refine ⟨rfl, fun h => ?_⟩
  have hv : totalCost (runScrapes cfgDefault [abortJob] costs0).2
      = (0 + ((4 : ℕ) : ℚ) / 4 / 1000000 * 0.14) + 0 := rfl
  have hfe : (runScrapes cfgDefault [abortJob] costs0).1.filter ScrapeResult.success = [] := rfl
  rw [hv, hfe] at h
  have h0 : totalCost costs0 = 0 := by
    simp [totalCost, costs0]
  rw [h0] at h
  norm_num at h

/-! ## C6 — batch partitioning and checkpointing -/

theorem chunkGo_join (bs : ℕ) (hbs : bs ≠ 0) :
    ∀ (fuel : ℕ) (l : List CompanyTaskE), l.length ≤ fuel → (chunkGo bs fuel l).flatten = l := by
  intro fuel
  induction fuel with
  | zero =>
    intro l hl
    have hnil : l = [] := List.length_eq_zero.mp (Nat.le_zero.mp hl)
    subst hnil
    rfl
  | succ fuel ih =>
    intro l hl
    cases l with
    | nil => rfl
    | cons x xs =>
      obtain ⟨k, rfl⟩ : ∃ k, bs = k + 1 :=
        ⟨bs - 1, (Nat.succ_pred_eq_of_pos (Nat.pos_of_ne_zero hbs)).symm⟩
      have hl' : xs.length + 1 ≤ fuel + 1 := by simpa using hl
      have hlen : (xs.drop (k + 1 - 1)).length ≤ fuel := by
        rw [List.length_drop]
        omega
      simp only [chunkGo, List.flatten_cons]
      rw [ih (xs.drop (k + 1 - 1)) hlen]
      rw [Nat.add_sub_cancel, List.take_succ_cons, List.cons_append, List.take_append_drop]

theorem chunkGo_sizes (bs : ℕ) (hbs : bs ≠ 0) :
    ∀ (fuel : ℕ) (l : List CompanyTaskE), ∀ b ∈ chunkGo bs fuel l, b.length ≤ bs ∧ b ≠ [] := by
  intro fuel
  induction fuel with
  | zero =>
    intro l b hb
    simp [chunkGo] at hb
  | succ fuel ih =>
    intro l b hb
    cases l with
    | nil => simp [chunkGo] at hb
    | cons x xs =>
      obtain ⟨k, rfl⟩ : ∃ k, bs = k + 1 :=
        ⟨bs - 1, (Nat.succ_pred_eq_of_pos (Nat.pos_of_ne_zero hbs)).symm⟩
      simp only [chunkGo] at hb
      rcases List.mem_cons.mp hb with rfl | hb'
      · constructor
        · rw [List.length_take]
          exact min_le_left _ _
        · rw [List.take_succ_cons]
          exact List.cons_ne_nil _ _
      · exact ih _ b hb'

theorem chunkList_join (bs : ℕ) (hbs : bs ≠ 0) (l : List CompanyTaskE) :
    (chunkList bs l).flatten = l :=
  chunkGo_join bs hbs l.length l (le_refl _)

theorem chunkList_sizes (bs : ℕ) (hbs : bs ≠ 0) (l : List CompanyTaskE) :
    ∀ b ∈ chunkList bs l, b.length ≤ bs ∧ b ≠ [] :=
  chunkGo_sizes bs hbs l.length l

theorem process_company_batch_length (cfg : EnvConfig) :
    ∀ (b : List CompanyTaskE) (st : Costs),
      (process_company_batch cfg b st).1.length = b.length := by
  intro b
  induction b with
  | nil => intro st; rfl
  | cons t rest ih =>
    intro st
    simp [process_company_batch, ih]

theorem pipelineBatches_cps_length (cfg : EnvConfig) :
    ∀ (batches : List (List CompanyTaskE)) (acc : List CompanyResultM) (st : Costs),
      (pipelineBatches cfg batches acc st).2.1.length = batches.length := by
  intro batches
  induction batches with
  | nil => intro acc st; rfl
  | cons batch rest ih =>
    intro acc st
    simp [pipelineBatches, ih]

theorem pipelineBatches_cps_written (cfg : EnvConfig) :
    ∀ (batches : List (List CompanyTaskE)) (acc : List CompanyResultM) (st : Costs),
      (∀ b ∈ batches, b ≠ []) →
      ∀ cp ∈ (pipelineBatches cfg batches acc st).2.1, cp.isSome = true := by
  intro batches
  induction batches with
  | nil =>
    intro acc st _ cp hcp
    simp [pipelineBatches] at hcp
  | cons batch rest ih =>
    intro acc st hne cp hcp
    have hb : batch ≠ [] := hne batch (List.mem_cons_self _ _)
    simp only [pipelineBatches] at hcp
    rcases List.mem_cons.mp hcp with rfl | h'
    · have hbr : (process_company_batch cfg batch st).1 ≠ [] := by
        intro he
        apply hb
        have h0 := process_company_batch_length cfg batch st
        rw [he] at h0
        exact List.length_eq_zero.mp h0.symm
      have hne3 : acc ++ (process_company_batch cfg batch st).1 ≠ [] := by
        intro he
        exact hbr (List.append_eq_nil.mp he).2
      cases hl : acc ++ (process_company_batch cfg batch st).1 with
      | nil => exact absurd hl hne3
      | cons a as => rfl
    · exact ih _ _ (fun b hb2 => hne b (List.mem_cons_of_mem _ hb2)) cp h'

/-- C6: after truncating to the first `limit` tasks (Python truthiness: a
falsy `limit` skips the truncation), the orchestrator partitions the task
list into contiguous nonempty batches of at most `batch_size`, writes exactly
one checkpoint (the cumulative master CSV) after each batch, and in
particular for 12 tasks with `batch_size = 5` performs exactly 3 checkpoint
writes of cumulative sizes 5, 10, 12 — so the batch sizes are 5, 5, 2 and the
cumulative result collection after the 2nd checkpoint holds exactly 10
company results. -/
theorem c6_batch_checkpointing (cfg : EnvConfig) (tasks : List CompanyTaskE)
    (limit : Option ℕ) (bs : ℕ) (hbs : 0 < bs) (st : Costs) :
    ((chunkList bs (truncate_limit limit tasks)).flatten = truncate_limit limit tasks) ∧
    (∀ b ∈ chunkList bs (truncate_limit limit tasks), b.length ≤ bs ∧ b ≠ []) ∧
    ((run_research_pipeline cfg tasks limit bs st).2.1.length
        = (chunkList bs (truncate_limit limit tasks)).length) ∧
    (∀ cp ∈ (run_research_pipeline cfg tasks limit bs st).2.1, cp.isSome = true) ∧
    ((run_research_pipeline cfgDefault tasks12 none 5 costs0).2.1.map (Option.map List.length)
        = [some 5, some 10, some 12]) := by
  refine ⟨chunkList_join bs hbs.ne' _, chunkList_sizes bs hbs.ne' _, ?_, ?_, ?_⟩
  · unfold run_research_pipeline
    exact pipelineBatches_cps_length cfg _ [] st
  · unfold run_research_pipeline
    exact pipelineBatches_cps_written cfg _ [] st
      (fun b hb => (chunkList_sizes bs hbs.ne' _ b hb).2)
  · rfl

/-- Witness for C6 at the spec's concrete scenario: 12 tasks, batch size 5. -/
theorem c6_batch_checkpointing_witness :
    (0 < 5) ∧
    ((chunkList 5 (truncate_limit none tasks12)).flatten = truncate_limit none tasks12) ∧
    ((run_research_pipeline cfgDefault tasks12 none 5 costs0).2.1.length
        = (chunkList 5 (truncate_limit none tasks12)).length) ∧
    ((run_research_pipeline cfgDefault tasks12 none 5 costs0).2.1.map (Option.map List.length)
        = [some 5, some 10, some 12]) :=
  ⟨by decide,
   (c6_batch_checkpointing cfgDefault tasks12 none 5 (by decide) costs0).1,
   (c6_batch_checkpointing cfgDefault tasks12 none 5 (by decide) costs0).2.2.1,
   (c6_batch_checkpointing cfgDefault tasks12 none 5 (by decide) costs0).2.2.2.2⟩

/-! ## C9 — no lost ledger updates under concurrency -/

theorem recordCost_comm (b1 b2 : Backend) (c1 c2 : ℚ) (st : Costs) :
    recordCost b1 c1 (recordCost b2 c2 st) = recordCost b2 c2 (recordCost b1 c1 st) := by
  cases b1 <;> cases b2 <;> simp [recordCost] <;> ring

theorem recordCost_pages (b : Backend) (c : ℚ) (st : Costs) :
    (recordCost b c st).total_pages = st.total_pages + 1 := by
  cases b <;> rfl

theorem applyUpdates_perm_eq {l l' : List (Backend × ℚ)} (h : l.Perm l') :
    ∀ st, applyUpdates l st = applyUpdates l' st := by
  induction h with
  | nil => intro st; rfl
  | cons x _ ih =>
    intro st
    simp only [applyUpdates]
    exact ih _
  | swap x y l =>
    intro st
    simp only [applyUpdates]
    rw [recordCost_comm]
  | trans _ _ ih1 ih2 =>
    intro st
    rw [ih1 st, ih2 st]

theorem applyUpdates_total :
    ∀ (l : List (Backend × ℚ)) (st : Costs),
      totalCost (applyUpdates l st) = totalCost st + (l.map Prod.snd).sum ∧
      (applyUpdates l st).total_pages = st.total_pages + l.length := by
  intro l
  induction l with
  | nil =>
    intro st
    simp [applyUpdates]
  | cons u rest ih =>
    intro st
    simp only [applyUpdates, List.map_cons, List.sum_cons, List.length_cons]
    constructor
    · rw [(ih _).1, totalCost_recordCost]
      ring
    · rw [(ih _).2, recordCost_pages]
      omega

/-- C9: the ledger update of each completed successful fetch is a single
atomic `recordCost`; applying the N per-fetch updates in any completion order
(any permutation) yields the same ledger, whose total grew by exactly the sum
of the individual costs and whose page counter grew by exactly N — no
increment is lost under any interleaving. -/
theorem c9_no_lost_updates (l l' : List (Backend × ℚ)) (st : Costs) (h : l.Perm l') :
    applyUpdates l st = applyUpdates l' st ∧
    totalCost (applyUpdates l st) = totalCost st + (l.map Prod.snd).sum ∧
    (applyUpdates l st).total_pages = st.total_pages + l.length :=
  ⟨applyUpdates_perm_eq h st, (applyUpdates_total l st).1, (applyUpdates_total l st).2⟩

/-- Witness for C9 at a concrete pair of interleavings (two mixed-backend
updates in both orders). -/
theorem c9_no_lost_updates_witness :
    ([(Backend.crawl4ai, (1 : ℚ)/2), (Backend.firecrawl, 1/100)].Perm
      [(Backend.firecrawl, (1 : ℚ)/100), (Backend.crawl4ai, 1/2)]) ∧
    (applyUpdates [(Backend.crawl4ai, (1 : ℚ)/2), (Backend.firecrawl, 1/100)] costs0
      = applyUpdates [(Backend.firecrawl, (1 : ℚ)/100), (Backend.crawl4ai, 1/2)] costs0) ∧
    (totalCost (applyUpdates [(Backend.crawl4ai, (1 : ℚ)/2), (Backend.firecrawl, 1/100)] costs0)
      = totalCost costs0
        + ([(Backend.crawl4ai, (1 : ℚ)/2), (Backend.firecrawl, 1/100)].map Prod.snd).sum) :=
  ⟨List.Perm.swap (Backend.firecrawl, (1 : ℚ)/100) (Backend.crawl4ai, 1/2) [],
   (c9_no_lost_updates _ _ costs0
     (List.Perm.swap (Backend.firecrawl, (1 : ℚ)/100) (Backend.crawl4ai, 1/2) [])).1,
   (c9_no_lost_updates _ _ costs0
     (List.Perm.swap (Backend.firecrawl, (1 : ℚ)/100) (Backend.crawl4ai, 1/2) [])).2.1⟩
